import Mathlib

/-!
Verification of the receipt-points service in `main.go` (package `main`).

The Go program is embedded shallowly:

* `Item`, `Receipt` mirror the two JSON structs.
* `receiptPoints` mirrors the Go function `receiptPoints` line by line:
  alphanumeric retailer count, the two `math.Mod` checks on the parsed
  total, the item-pair bonus, the per-item description-length bonus, and
  the early `return 0` on a date or time parse failure.
* Decimal strings are parsed by `parseFloatQ`, which models
  `strconv.ParseFloat(s, 64)` with exact rational values: optional sign,
  decimal digits with an optional fraction part and an optional decimal
  exponent.  Go's binary `float64` agrees with exact rational arithmetic
  on every decimal string appearing in the development (the spec itself
  notes float rounding at exact boundaries as an accepted quirk).  The
  special forms `Inf` / `NaN`, hexadecimal floats and digit-separating
  underscores accepted by `strconv.ParseFloat` are not modelled; no
  claim depends on them.  A failed parse is `none`; the Go code ignores
  the error and uses the zero value, modelled by `Option.getD 0`.
* `math.Mod` (truncated remainder, sign of the dividend) is `goMod`;
  `math.Ceil` followed by Go's `int` conversion is `ratCeil` (on the
  integral value `math.Ceil` produces, the conversion is exact).
* `time.Parse("2006-01-02", s)` and `time.Parse("15:04", s)` become
  `parseDate` / `parseTime`: four-digit year, two-digit month `01`-`12`,
  two-digit day validated against the month length (with Go's leap-year
  rule), resp. one-or-two-digit hour `0`-`23`, colon, two-digit minute
  `00`-`59`, with no trailing characters.
* The two gin handlers `getReceiptPoints` and `postReceipt` are modelled
  over an association-list store; the `uuid.New` retry loop draws from
  an explicit list of candidate identifiers, `none` standing for the
  (probability-zero) case that every candidate collides.
-/

/-- One character of a decimal number: `'0'`-`'9'`. -/
def isDigitChar (c : Char) : Bool := '0' ≤ c && c ≤ '9'

/-- Value of a digit string, most significant first (as in `strconv`). -/
def digitsToNat (ds : List Char) : Nat :=
  ds.foldl (fun n c => 10 * n + (c.toNat - '0'.toNat)) 0

/-- Exponent part of a float literal, given the characters after `e`/`E`:
optional sign, then at least one digit.  Returns the signed exponent and
the unread remainder. -/
def parseExpPart (cs : List Char) : Option (Int × List Char) :=
  let signAndRest : Int × List Char :=
    match cs with
    | '+' :: rest => (1, rest)
    | '-' :: rest => (-1, rest)
    | _ => (1, cs)
  let ds := signAndRest.2.takeWhile isDigitChar
  if ds.isEmpty then none
  else some (signAndRest.1 * (digitsToNat ds : Int), signAndRest.2.drop ds.length)

/-- `strconv.ParseFloat(s, 64)` on ordinary decimal literals, with exact
rational semantics: `[+-]? digits [. digits]? ([eE] [+-]? digits)?`, at
least one digit in the mantissa, nothing left over.  `none` models the
non-nil error (Go then leaves the value at `0`). -/
def parseFloatQ (s : String) : Option ℚ :=
  let cs := s.toList
  let signAndRest : Bool × List Char :=
    match cs with
    | '+' :: rest => (false, rest)
    | '-' :: rest => (true, rest)
    | _ => (false, cs)
  let neg := signAndRest.1
  let ip := signAndRest.2.takeWhile isDigitChar
  let afterInt := signAndRest.2.drop ip.length
  let fracAndRest : List Char × List Char :=
    match afterInt with
    | '.' :: rest => (rest.takeWhile isDigitChar, rest.drop (rest.takeWhile isDigitChar).length)
    | _ => ([], afterInt)
  let fp := fracAndRest.1
  if ip.isEmpty && fp.isEmpty then none
  else
    let mant : ℚ := (digitsToNat (ip ++ fp) : ℚ) / (10 : ℚ) ^ fp.length
    let withExp : Option ℚ :=
      match fracAndRest.2 with
      | [] => some mant
      | 'e' :: rest =>
          match parseExpPart rest with
          | some (e, []) =>
              some (if 0 ≤ e then mant * (10 : ℚ) ^ e.toNat else mant / (10 : ℚ) ^ (-e).toNat)
          | _ => none
      | 'E' :: rest =>
          match parseExpPart rest with
          | some (e, []) =>
              some (if 0 ≤ e then mant * (10 : ℚ) ^ e.toNat else mant / (10 : ℚ) ^ (-e).toNat)
          | _ => none
      | _ => none
    withExp.map fun v => if neg then -v else v

/-- Truncated integer part of a rational (rounding toward zero), the
rounding `math.Mod` is built on. -/
def ratTrunc (q : ℚ) : ℤ := q.num.tdiv q.den

/-- `math.Mod x y`: remainder of `x / y` with the sign of `x` (never
applied at `y = 0` in the program). -/
def goMod (x y : ℚ) : ℚ := x - y * (ratTrunc (x / y) : ℚ)

/-- `int(math.Ceil q)`: the ceiling of `q` as an integer. -/
def ratCeil (q : ℚ) : ℤ := -((-q.num).fdiv (q.den : ℤ))

/-- `Item` struct of `main.go`. -/
structure Item where
  shortDescription : String
  price : String
deriving DecidableEq, Repr

/-- `Receipt` struct of `main.go`. -/
structure Receipt where
  retailer : String
  purchaseDate : String
  purchaseTime : String
  total : String
  items : List Item
deriving DecidableEq, Repr

/-- Result of `time.Parse("2006-01-02", _)`, reduced to the fields the
program reads. -/
structure GoDate where
  year : Nat
  month : Nat
  day : Nat
deriving DecidableEq, Repr

/-- Result of `time.Parse("15:04", _)`, reduced to the fields the
program reads. -/
structure GoTime where
  hour : Nat
  minute : Nat
deriving DecidableEq, Repr

/-- Go's leap-year rule (`time.isLeap`). -/
def isLeapYear (y : Nat) : Bool := y % 4 == 0 && (y % 100 != 0 || y % 400 == 0)

/-- `time.daysIn`: number of days of month `m` in year `y`. -/
def daysInMonth (y m : Nat) : Nat :=
  if m == 2 then (if isLeapYear y then 29 else 28)
  else if m == 4 || m == 6 || m == 9 || m == 11 then 30
  else 31

/-- `time.Parse("2006-01-02", s)`: four-digit year, dash, two-digit
month in `01`-`12`, dash, two-digit day valid for that month, end of
input.  `none` is a non-nil parse error. -/
def parseDate (s : String) : Option GoDate :=
  match s.toList with
  | [y1, y2, y3, y4, '-', m1, m2, '-', d1, d2] =>
      if [y1, y2, y3, y4, m1, m2, d1, d2].all isDigitChar then
        let y := digitsToNat [y1, y2, y3, y4]
        let m := digitsToNat [m1, m2]
        let d := digitsToNat [d1, d2]
        if 1 ≤ m && m ≤ 12 && 1 ≤ d && d ≤ daysInMonth y m then some ⟨y, m, d⟩ else none
      else none
  | _ => none

/-- `time.Parse("15:04", s)`: one- or two-digit hour in `0`-`23`, colon,
two-digit minute in `00`-`59`, end of input.  `none` is a non-nil parse
error. -/
def parseTime (s : String) : Option GoTime :=
  match s.toList with
  | [h1, ':', m1, m2] =>
      if [h1, m1, m2].all isDigitChar then
        let m := digitsToNat [m1, m2]
        if m ≤ 59 then some ⟨digitsToNat [h1], m⟩ else none
      else none
  | [h1, h2, ':', m1, m2] =>
      if [h1, h2, m1, m2].all isDigitChar then
        let h := digitsToNat [h1, h2]
        let m := digitsToNat [m1, m2]
        if h ≤ 23 && m ≤ 59 then some ⟨h, m⟩ else none
      else none
  | _ => none

/-- The alphanumeric test of the retailer loop:
`(char >= 'a' && char <= 'z') || (char >= 'A' && char <= 'Z') || (char >= '0' && char <= '9')`. -/
def isAlnum (c : Char) : Bool :=
  ('a' ≤ c && c ≤ 'z') || ('A' ≤ c && c ≤ 'Z') || ('0' ≤ c && c ≤ '9')

/-- Retailer loop of `receiptPoints`: one point per alphanumeric
character (Go `range` iterates the runes of the string). -/
def retailerPoints (retailer : String) : ℤ :=
  (retailer.toList.countP isAlnum : ℕ)

/-- `strings.Trim(s, " ")` : the characters of `s` with leading and
trailing spaces removed. -/
def goTrimSpaces (s : String) : List Char :=
  ((s.toList.dropWhile (· == ' ')).reverse.dropWhile (· == ' ')).reverse

/-- Go `len` of the trimmed description: its length in UTF-8 bytes. -/
def trimmedLen (s : String) : Nat :=
  (goTrimSpaces s |>.map Char.utf8Size).sum

/-- One iteration of the item-description loop: if the trimmed
description's byte length is a multiple of 3, `int(math.Ceil(price *
0.2))` with the price parsed as by `strconv.ParseFloat` (zero on
error); otherwise nothing. -/
def itemDescPoints (it : Item) : ℤ :=
  if trimmedLen it.shortDescription % 3 == 0 then
    ratCeil (((parseFloatQ it.price).getD 0) * (1 / 5 : ℚ))
  else 0

/-- The whole item-description loop. -/
def descriptionPoints (items : List Item) : ℤ :=
  (items.map itemDescPoints).sum

/-- `receiptPoints` of `main.go`, clause for clause.  The two
`math.Mod` checks use the parsed total with the parse error discarded
(`receiptTotal, _ := strconv.ParseFloat(...)`, hence `getD 0`); a date
or time parse failure is an early `return 0`; the redundant inner
conditional of the time check is kept as written. -/
def receiptPoints (receipt : Receipt) : ℤ :=
  let points : ℤ := retailerPoints receipt.retailer
  let receiptTotal : ℚ := (parseFloatQ receipt.total).getD 0
  let points := if goMod receiptTotal 1 == 0 then points + 50 else points
  let points := if goMod receiptTotal (1 / 4) == 0 then points + 25 else points
  let points := points + 5 * ((receipt.items.length / 2 : ℕ) : ℤ)
  let points := points + descriptionPoints receipt.items
  match parseDate receipt.purchaseDate with
  | none => 0
  | some receiptDate =>
      let points := if receiptDate.day % 2 != 0 then points + 6 else points
      match parseTime receipt.purchaseTime with
      | none => 0
      | some receiptTime =>
          if 14 ≤ receiptTime.hour && receiptTime.hour < 16 then
            if receiptTime.hour == 14 && 0 < receiptTime.minute then points + 10
            else points + 10
          else points

/-- Outcome of the `GET /receipts/:id/points` handler: the JSON body it
writes, either `{"points": ...}` with status 200 or `{"message": ...}`
with status 404. -/
inductive QueryResult where
  | ok (points : ℤ)
  | notFound (message : String)
deriving DecidableEq, Repr

/-- The in-memory store `var receipts = make(map[string]Receipt)`,
modelled as an association list (latest insertion first). -/
abbrev Store := List (String × Receipt)

/-- Map lookup `receipts[receiptId]` with its `exists` flag folded into
`Option`. -/
def Store.find (store : Store) (id : String) : Option Receipt :=
  List.lookup id store

/-- `getReceiptPoints` of `main.go`: look the identifier up; if it
exists, respond 200 with `receiptPoints` of the stored receipt,
otherwise respond 404 with `"Receipt not found"`. -/
def getReceiptPoints (store : Store) (id : String) : QueryResult :=
  match store.find id with
  | some currReceipt => .ok (receiptPoints currReceipt)
  | none => .notFound "Receipt not found"

/-- The `uuid.New()` retry loop of `postReceipt`: take candidates from
`guids` until one is not yet a key of the store.  `none` models the
probability-zero event that every supplied candidate collides (the Go
loop would keep drawing fresh UUIDs). -/
def genFreshId (store : Store) : List String → Option String
  | [] => none
  | g :: gs => if (store.find g).isSome then genFreshId store gs else some g

/-- `postReceipt` of `main.go` after a successful `BindJSON`: draw a
fresh identifier (from the explicit candidate list `guids`), insert the
receipt under it, and answer 201 with the identifier.  The handler
never scores the receipt. -/
def postReceipt (store : Store) (newReceipt : Receipt) (guids : List String) :
    Option (String × Store) :=
  match genFreshId store guids with
  | some id => some (id, (id, newReceipt) :: store)
  | none => none

/-- Round-dollar clause of `receiptPoints`: `math.Mod(receiptTotal, 1.00) == 0`. -/
def roundDollarPoints (total : String) : ℤ :=
  if goMod ((parseFloatQ total).getD 0) 1 == 0 then 50 else 0

/-- Quarter-multiple clause of `receiptPoints`: `math.Mod(receiptTotal, 0.25) == 0`. -/
def quarterPoints (total : String) : ℤ :=
  if goMod ((parseFloatQ total).getD 0) (1 / 4) == 0 then 25 else 0

/-- Item-pair clause of `receiptPoints`: `5 * (len(receipt.Items) / 2)`. -/
def itemPairPoints (items : List Item) : ℤ :=
  5 * ((items.length / 2 : ℕ) : ℤ)

/-- Odd-day clause of `receiptPoints`: `receiptDate.Day()%2 != 0`. -/
def datePoints (d : GoDate) : ℤ :=
  if d.day % 2 != 0 then 6 else 0

/-- Time-window clause of `receiptPoints`, with its redundant inner
conditional kept as written. -/
def timeRulePoints (t : GoTime) : ℤ :=
  if 14 ≤ t.hour && t.hour < 16 then
    if t.hour == 14 && 0 < t.minute then 10 else 10
  else 0


/-- When both the date and the time parse, `receiptPoints` is the sum
of the six rule contributions. -/
theorem receiptPoints_decomp (r : Receipt) (d : GoDate) (t : GoTime)
    (hd : parseDate r.purchaseDate = some d) (ht : parseTime r.purchaseTime = some t) :
    receiptPoints r =
      retailerPoints r.retailer + roundDollarPoints r.total + quarterPoints r.total +
        itemPairPoints r.items + descriptionPoints r.items + datePoints d + timeRulePoints t := by
  simp only [receiptPoints, hd, ht, roundDollarPoints, quarterPoints, itemPairPoints,
    datePoints, timeRulePoints]
  split_ifs <;> ring

/-- `ratCeil` is the mathematical ceiling. -/
theorem ratCeil_eq_ceil (q : ℚ) : ratCeil q = ⌈q⌉ := by
  unfold ratCeil
  rw [Int.fdiv_eq_ediv _ (Int.natCast_nonneg q.den)]
  have h : -q.num / (q.den : ℤ) = ⌊-q⌋ := by
    rw [Rat.floor_def, Rat.num_neg_eq_neg_num, Rat.den_neg_eq_den]
  rw [h, Int.floor_neg, neg_neg]

/-- `math.Mod(0, y) = 0`: the zero value left by a failed parse passes
every divisibility check. -/
theorem goMod_zero (y : ℚ) : goMod 0 y = 0 := by
  simp [goMod, ratTrunc]

/-- The round-dollar clause contributes 50 or nothing. -/
theorem roundDollarPoints_cases (total : String) :
    roundDollarPoints total = 50 ∨ roundDollarPoints total = 0 := by
  unfold roundDollarPoints
  split <;> simp

/-- The quarter clause contributes 25 or nothing. -/
theorem quarterPoints_cases (total : String) :
    quarterPoints total = 25 ∨ quarterPoints total = 0 := by
  unfold quarterPoints
  split <;> simp

/-- A candidate accepted by the retry loop is absent from the store. -/
theorem genFreshId_not_mem (store : Store) (guids : List String) (id : String)
    (h : genFreshId store guids = some id) : store.find id = none := by
  induction guids with
  | nil => simp [genFreshId] at h
  | cons g gs ih =>
      unfold genFreshId at h
      by_cases hg : (store.find g).isSome
      · exact ih (by simpa [hg] using h)
      · have : g = id := by simpa [hg] using h
        subst this
        exact Option.not_isSome_iff_eq_none.mp hg

/-- The receipt of the spec's end-to-end scenario: retailer `Target`,
date `2022-01-01`, time `13:01`, total `1.25`, and the two items
`Pepsi - 12-oz` at `1.25` and `Dasani` at `1.40`. -/
def classicReceipt : Receipt :=
  ⟨"Target", "2022-01-01", "13:01", "1.25",
    [⟨"Pepsi - 12-oz", "1.25"⟩, ⟨"Dasani", "1.40"⟩]⟩

attribute [local semireducible] Rat.mul Rat.add Rat.sub Rat.inv in
/-- C1 (counterexample): the end-to-end scenario receipt does not score
31 points. -/
theorem C1_counterexample : receiptPoints classicReceipt ≠ 31 := by decide

attribute [local semireducible] Rat.mul Rat.add Rat.sub Rat.inv in
/-- C1 (amended): the end-to-end scenario receipt scores exactly 43
points: 6 for the retailer's alphanumeric characters, 25 for the
quarter-multiple total, 5 for the pair of items, 1 for `Dasani`
(trimmed length 6, `ceil(1.40 * 0.2) = 1`), and 6 for the odd purchase
day; `13:01` is outside the 2pm-4pm window and `1.25` is not a round
dollar amount. -/
theorem C1_amended_score : receiptPoints classicReceipt = 43 := by decide

attribute [local semireducible] Rat.mul Rat.add Rat.sub Rat.inv in
/-- C2 (counterexample): a total that does not parse as a decimal
number still receives the round-dollar 50 points: `strconv.ParseFloat`
leaves the zero value, and `math.Mod(0, 1.00) == 0`.  On a full receipt
with total `"abc"` and no other contributions, 75 points result. -/
theorem C2_counterexample :
    parseFloatQ "abc" = none ∧ roundDollarPoints "abc" = 50 ∧
      receiptPoints ⟨"", "2022-01-02", "13:01", "abc", []⟩ = 75 := by decide

/-- C2 (amended): the round-dollar rule adds 50 points exactly when the
total parses to a value that is 0 modulo 1.00 — or when the total fails
to parse at all, the failed parse yielding the value 0, which satisfies
the check; in every other case it adds 0. -/
theorem C2_round_dollar_rule (total : String) :
    (roundDollarPoints total = 50 ↔
      parseFloatQ total = none ∨ ∃ q : ℚ, parseFloatQ total = some q ∧ goMod q 1 = 0) ∧
    (roundDollarPoints total = 50 ∨ roundDollarPoints total = 0) := by
  refine ⟨?_, roundDollarPoints_cases total⟩
  unfold roundDollarPoints
  cases h : parseFloatQ total with
  | none => simp [goMod_zero]
  | some q =>
      simp only [Option.getD_some]
      constructor
      · intro h50
        refine Or.inr ⟨q, rfl, ?_⟩
        by_contra hm
        simp [hm] at h50
      · rintro (hnone | ⟨q1, hq1, hm⟩)
        · exact (Option.some_ne_none q hnone).elim
        · injection hq1 with hq
          subst hq
          simp [hm]

/-- A receipt whose only item has an empty description (trimmed length
0, a multiple of 3) and a negative price string. -/
def negativePriceReceipt : Receipt :=
  ⟨"", "2022-01-02", "13:01", "0.10", [⟨"", "-5.00"⟩]⟩

attribute [local semireducible] Rat.mul Rat.add Rat.sub Rat.inv in
/-- C3 (counterexample): both date and time of `negativePriceReceipt`
parse, yet its score is `ceil(-5.00 * 0.2) = -1`, which is negative:
the description-length rule can subtract points when an item's price
string parses to a negative value. -/
theorem C3_counterexample :
    parseDate negativePriceReceipt.purchaseDate ≠ none ∧
      parseTime negativePriceReceipt.purchaseTime ≠ none ∧
      receiptPoints negativePriceReceipt < 0 := by decide

/-- C3 (amended): for every receipt whose date and time parse and none
of whose item price strings parses to a negative value (a price that
fails to parse counts as 0), the score is at least 0. -/
theorem C3_nonneg_score (r : Receipt) (d : GoDate) (t : GoTime)
    (hd : parseDate r.purchaseDate = some d) (ht : parseTime r.purchaseTime = some t)
    (hp : ∀ it ∈ r.items, 0 ≤ (parseFloatQ it.price).getD 0) :
    0 ≤ receiptPoints r := by
  rw [receiptPoints_decomp r d t hd ht]
  have h1 : 0 ≤ retailerPoints r.retailer := by
    unfold retailerPoints
    exact Int.natCast_nonneg _
  have h2 : 0 ≤ roundDollarPoints r.total := by
    rcases roundDollarPoints_cases r.total with h | h <;> omega
  have h3 : 0 ≤ quarterPoints r.total := by
    rcases quarterPoints_cases r.total with h | h <;> omega
  have h4 : 0 ≤ itemPairPoints r.items := by
    unfold itemPairPoints
    positivity
  have h5 : 0 ≤ descriptionPoints r.items := by
    unfold descriptionPoints
    apply List.sum_nonneg
    intro x hx
    obtain ⟨it, hit, rfl⟩ := List.mem_map.mp hx
    unfold itemDescPoints
    split
    · rw [ratCeil_eq_ceil]
      exact Int.ceil_nonneg (mul_nonneg (hp it hit) (by norm_num))
    · exact le_refl 0
  have h6 : 0 ≤ datePoints d := by
    unfold datePoints
    split <;> omega
  have h7 : 0 ≤ timeRulePoints t := by
    unfold timeRulePoints
    split_ifs <;> omega
  omega

attribute [local semireducible] Rat.mul Rat.add Rat.sub Rat.inv in
/-- C3 (witness): the amended bound at a concrete receipt with a
nonnegative item price. -/
theorem C3_witness :
    parseDate "2022-01-01" = some ⟨2022, 1, 1⟩ ∧ parseTime "14:30" = some ⟨14, 30⟩ ∧
      (∀ it ∈ [Item.mk "abc" "1.00"], 0 ≤ (parseFloatQ it.price).getD 0) ∧
      0 ≤ receiptPoints ⟨"Shop", "2022-01-01", "14:30", "2.00", [⟨"abc", "1.00"⟩]⟩ :=
  ⟨by decide, by decide, by decide,
    C3_nonneg_score ⟨"Shop", "2022-01-01", "14:30", "2.00", [⟨"abc", "1.00"⟩]⟩
      ⟨2022, 1, 1⟩ ⟨14, 30⟩ (by decide) (by decide) (by decide)⟩

/-- C4: a receipt whose purchase date or purchase time fails to parse
scores exactly 0 — the early `return 0` discards every point already
accumulated by the retailer, total, item-count and description rules. -/
theorem C4_parse_failure_zero (r : Receipt)
    (h : parseDate r.purchaseDate = none ∨ parseTime r.purchaseTime = none) :
    receiptPoints r = 0 := by
  rcases h with h | h
  · simp [receiptPoints, h]
  · cases hd : parseDate r.purchaseDate with
    | none => simp [receiptPoints, hd]
    | some d => simp [receiptPoints, hd, h]

/-- C4 (witness): a receipt with an unparseable month, and one with an
unparseable time, both score 0 even though the other rules would have
contributed points. -/
theorem C4_witness :
    (parseDate "2022-13-01" = none ∨ parseTime "13:01" = none) ∧
      receiptPoints ⟨"Target", "2022-13-01", "13:01", "35.00", []⟩ = 0 ∧
      (parseDate "2022-01-01" = none ∨ parseTime "25:61" = none) ∧
      receiptPoints ⟨"Target", "2022-01-01", "25:61", "35.00", []⟩ = 0 :=
  ⟨Or.inl (by decide),
    C4_parse_failure_zero ⟨"Target", "2022-13-01", "13:01", "35.00", []⟩ (Or.inl (by decide)),
    Or.inr (by decide),
    C4_parse_failure_zero ⟨"Target", "2022-01-01", "25:61", "35.00", []⟩ (Or.inr (by decide))⟩

/-- C5: an item whose trimmed description length is a multiple of 3
(length 0 included) contributes the ceiling of one fifth of its parsed
price; an unparseable price contributes 0 (the zero value parses out of
the failed `ParseFloat`); any other trimmed length contributes 0. -/
theorem C5_description_rule (it : Item) :
    (trimmedLen it.shortDescription % 3 = 0 →
      itemDescPoints it = ⌈((parseFloatQ it.price).getD 0) * (1 / 5 : ℚ)⌉) ∧
    (parseFloatQ it.price = none → itemDescPoints it = 0) ∧
    (trimmedLen it.shortDescription % 3 ≠ 0 → itemDescPoints it = 0) := by
  refine ⟨fun h => ?_, fun h => ?_, fun h => ?_⟩
  · unfold itemDescPoints
    rw [if_pos (by simpa using h), ratCeil_eq_ceil]
  · unfold itemDescPoints
    split
    · rw [h, ratCeil_eq_ceil]
      simp
    · rfl
  · unfold itemDescPoints
    rw [if_neg (by simpa using h)]

attribute [local semireducible] Rat.mul Rat.add Rat.sub Rat.inv in
/-- C5 (witness): `Dasani` has trimmed length 6 (a multiple of 3), so
with price `1.40` it contributes the ceiling of `1.40 / 5`; an item
with an unparseable price contributes 0. -/
theorem C5_witness :
    (trimmedLen "Dasani" % 3 = 0 ∧
      itemDescPoints ⟨"Dasani", "1.40"⟩ = ⌈((parseFloatQ "1.40").getD 0) * (1 / 5 : ℚ)⌉) ∧
    (parseFloatQ "oops" = none ∧ itemDescPoints ⟨"abc", "oops"⟩ = 0) :=
  ⟨⟨by decide, (C5_description_rule ⟨"Dasani", "1.40"⟩).1 (by decide)⟩,
    ⟨by decide, (C5_description_rule ⟨"abc", "oops"⟩).2.1 (by decide)⟩⟩

/-- C6: when the time parses, the time-window rule contributes exactly
10 points when the parsed hour lies in `[14, 16)` and 0 otherwise, the
minute playing no role (the redundant inner conditional of the source
adds 10 in both of its branches). -/
theorem C6_time_window (r : Receipt) (d : GoDate) (t : GoTime)
    (hd : parseDate r.purchaseDate = some d) (ht : parseTime r.purchaseTime = some t) :
    receiptPoints r =
      retailerPoints r.retailer + roundDollarPoints r.total + quarterPoints r.total +
        itemPairPoints r.items + descriptionPoints r.items + datePoints d +
        (if 14 ≤ t.hour ∧ t.hour < 16 then 10 else 0) := by
  rw [receiptPoints_decomp r d t hd ht]
  have htime : timeRulePoints t = (if 14 ≤ t.hour ∧ t.hour < 16 then 10 else 0) := by
    simp only [timeRulePoints, Bool.and_eq_true, decide_eq_true_eq, ite_self]
  rw [htime]

attribute [local semireducible] Rat.mul Rat.add Rat.sub Rat.inv in
/-- C6 (witness): at `14:00` the window contributes 10 despite the
minute being 0, and at `16:00` it contributes nothing (boundary
exclusive). -/
theorem C6_witness :
    receiptPoints ⟨"A", "2022-01-01", "14:00", "1.17", []⟩ =
      retailerPoints "A" + roundDollarPoints "1.17" + quarterPoints "1.17" +
        itemPairPoints [] + descriptionPoints [] + datePoints ⟨2022, 1, 1⟩ +
        (if 14 ≤ 14 ∧ 14 < 16 then 10 else 0) ∧
    receiptPoints ⟨"A", "2022-01-01", "16:00", "1.17", []⟩ =
      retailerPoints "A" + roundDollarPoints "1.17" + quarterPoints "1.17" +
        itemPairPoints [] + descriptionPoints [] + datePoints ⟨2022, 1, 1⟩ +
        (if 14 ≤ 16 ∧ 16 < 16 then 10 else 0) :=
  ⟨C6_time_window ⟨"A", "2022-01-01", "14:00", "1.17", []⟩ ⟨2022, 1, 1⟩ ⟨14, 0⟩
      (by decide) (by decide),
    C6_time_window ⟨"A", "2022-01-01", "16:00", "1.17", []⟩ ⟨2022, 1, 1⟩ ⟨16, 0⟩
      (by decide) (by decide)⟩

/-- ASCII-alphanumeric in the words of the spec: an ASCII letter
`a`-`z` or `A`-`Z`, or an ASCII digit `0`-`9`. -/
def isAsciiAlnumSpec (c : Char) : Prop :=
  ('a' ≤ c ∧ c ≤ 'z') ∨ ('A' ≤ c ∧ c ≤ 'Z') ∨ ('0' ≤ c ∧ c ≤ '9')

instance (c : Char) : Decidable (isAsciiAlnumSpec c) := by
  unfold isAsciiAlnumSpec
  infer_instance

/-- Spec-side count of ASCII-alphanumeric characters of a string, the
refinement target for `retailerPoints`. -/
def specAlnumCount (s : String) : ℕ :=
  (s.toList.filter fun c => decide (isAsciiAlnumSpec c)).length

/-- The Go loop's character test is the spec's ASCII-alphanumeric
predicate. -/
theorem isAlnum_eq_spec (c : Char) : isAlnum c = decide (isAsciiAlnumSpec c) := by
  simp [isAlnum, isAsciiAlnumSpec, Bool.or_assoc]

/-- The retailer loop counts exactly the ASCII-alphanumeric characters. -/
theorem retailerPoints_eq_spec (s : String) :
    retailerPoints s = (specAlnumCount s : ℤ) := by
  have hfun : isAlnum = fun c => decide (isAsciiAlnumSpec c) := funext isAlnum_eq_spec
  unfold retailerPoints specAlnumCount
  rw [List.countP_eq_length_filter, hfun]

/-- C7: within the full score, the retailer contributes exactly the
number of ASCII-alphanumeric characters (letters and digits) of the
retailer string, every other character contributing nothing; the
string `M&M Corner Market` has exactly 14 such characters. -/
theorem C7_retailer_rule (r : Receipt) (d : GoDate) (t : GoTime)
    (hd : parseDate r.purchaseDate = some d) (ht : parseTime r.purchaseTime = some t) :
    receiptPoints r =
      (specAlnumCount r.retailer : ℤ) + roundDollarPoints r.total + quarterPoints r.total +
        itemPairPoints r.items + descriptionPoints r.items + datePoints d + timeRulePoints t ∧
    specAlnumCount "M&M Corner Market" = 14 := by
  refine ⟨?_, by decide⟩
  rw [receiptPoints_decomp r d t hd ht, retailerPoints_eq_spec]

/-- C7 (witness): the retailer decomposition at a concrete receipt with
retailer `M&M Corner Market`. -/
theorem C7_witness :
    receiptPoints ⟨"M&M Corner Market", "2022-01-01", "13:01", "1.10", []⟩ =
      (specAlnumCount "M&M Corner Market" : ℤ) + roundDollarPoints "1.10" +
        quarterPoints "1.10" + itemPairPoints [] + descriptionPoints [] +
        datePoints ⟨2022, 1, 1⟩ + timeRulePoints ⟨13, 1⟩ ∧
    specAlnumCount "M&M Corner Market" = 14 :=
  C7_retailer_rule ⟨"M&M Corner Market", "2022-01-01", "13:01", "1.10", []⟩
    ⟨2022, 1, 1⟩ ⟨13, 1⟩ (by decide) (by decide)

/-- C8: querying an identifier absent from the store always answers the
not-found failure with message `Receipt not found` — never a points
value — and querying a present identifier answers exactly the scoring
engine's result for the stored receipt. -/
theorem C8_query_handler (store : Store) (id : String) :
    (store.find id = none → getReceiptPoints store id = .notFound "Receipt not found") ∧
    (∀ r : Receipt, store.find id = some r → getReceiptPoints store id = .ok (receiptPoints r)) := by
  constructor
  · intro h
    simp [getReceiptPoints, h]
  · intro r h
    simp [getReceiptPoints, h]

/-- C8 (witness): the empty store knows no identifier; a singleton
store answers the stored receipt's score. -/
theorem C8_witness :
    (Store.find [] "unknown" = none ∧
      getReceiptPoints [] "unknown" = .notFound "Receipt not found") ∧
    (Store.find [("a", classicReceipt)] "a" = some classicReceipt ∧
      getReceiptPoints [("a", classicReceipt)] "a" = .ok (receiptPoints classicReceipt)) :=
  ⟨⟨by decide, (C8_query_handler [] "unknown").1 (by decide)⟩,
    ⟨by decide, (C8_query_handler [("a", classicReceipt)] "a").2 classicReceipt (by decide)⟩⟩

/-- C9: a successful submission returns an identifier that was not in
the store at the moment of insertion, and that identifier queries back
to the stored receipt's score; a second successful submission (of any
payload, the same one included) returns a distinct identifier, and
after it both identifiers still query back to their receipts' scores. -/
theorem C9_submission_unique (store : Store) (r1 : Receipt) (g1 : List String)
    (id1 : String) (s1 : Store) (h1 : postReceipt store r1 g1 = some (id1, s1)) :
    store.find id1 = none ∧
    getReceiptPoints s1 id1 = .ok (receiptPoints r1) ∧
    ∀ (r2 : Receipt) (g2 : List String) (id2 : String) (s2 : Store),
      postReceipt s1 r2 g2 = some (id2, s2) →
        id2 ≠ id1 ∧ getReceiptPoints s2 id2 = .ok (receiptPoints r2) ∧
          getReceiptPoints s2 id1 = .ok (receiptPoints r1) := by
  have key1 : genFreshId store g1 = some id1 ∧ s1 = (id1, r1) :: store := by
    unfold postReceipt at h1
    cases hg : genFreshId store g1 with
    | none => rw [hg] at h1; exact absurd h1 (by simp)
    | some idf =>
        rw [hg] at h1
        injection h1 with h1
        rw [Prod.mk.injEq] at h1
        obtain ⟨h1a, h1b⟩ := h1
        subst h1a
        exact ⟨rfl, h1b.symm⟩
  obtain ⟨hg1, hs1⟩ := key1
  subst hs1
  have hfresh : store.find id1 = none := genFreshId_not_mem store g1 id1 hg1
  refine ⟨hfresh, ?_, ?_⟩
  · simp [getReceiptPoints, Store.find, List.lookup]
  · intro r2 g2 id2 s2 h2
    have key2 : genFreshId ((id1, r1) :: store) g2 = some id2 ∧
        s2 = (id2, r2) :: (id1, r1) :: store := by
      unfold postReceipt at h2
      cases hg : genFreshId ((id1, r1) :: store) g2 with
      | none => rw [hg] at h2; exact absurd h2 (by simp)
      | some idf =>
          rw [hg] at h2
          injection h2 with h2
          rw [Prod.mk.injEq] at h2
          obtain ⟨h2a, h2b⟩ := h2
          subst h2a
          exact ⟨rfl, h2b.symm⟩
    obtain ⟨hg2, hs2⟩ := key2
    subst hs2
    have hfresh2 : Store.find ((id1, r1) :: store) id2 = none :=
      genFreshId_not_mem _ g2 id2 hg2
    have hne : id2 ≠ id1 := by
      intro heq
      rw [heq] at hfresh2
      simp [Store.find, List.lookup] at hfresh2
    refine ⟨hne, ?_, ?_⟩
    · simp [getReceiptPoints, Store.find, List.lookup]
    · have hbeq : (id1 == id2) = false := beq_eq_false_iff_ne.mpr fun h => hne h.symm
      simp [getReceiptPoints, Store.find, List.lookup, hbeq]

/-- C9 (witness): submitting the same payload twice, the second draw
colliding once with the first identifier, yields two distinct
identifiers, each of which queries back to the payload's score. -/
theorem C9_witness :
    postReceipt [] classicReceipt ["id-a"] = some ("id-a", [("id-a", classicReceipt)]) ∧
    postReceipt [("id-a", classicReceipt)] classicReceipt ["id-a", "id-b"] =
      some ("id-b", [("id-b", classicReceipt), ("id-a", classicReceipt)]) ∧
    "id-b" ≠ "id-a" ∧
    getReceiptPoints [("id-b", classicReceipt), ("id-a", classicReceipt)] "id-b" =
      .ok (receiptPoints classicReceipt) ∧
    getReceiptPoints [("id-b", classicReceipt), ("id-a", classicReceipt)] "id-a" =
      .ok (receiptPoints classicReceipt) :=
  ⟨by decide, by decide,
    ((C9_submission_unique [] classicReceipt ["id-a"] "id-a" [("id-a", classicReceipt)]
          (by decide)).2.2 classicReceipt ["id-a", "id-b"] "id-b"
        [("id-b", classicReceipt), ("id-a", classicReceipt)] (by decide)).1,
    ((C9_submission_unique [] classicReceipt ["id-a"] "id-a" [("id-a", classicReceipt)]
          (by decide)).2.2 classicReceipt ["id-a", "id-b"] "id-b"
        [("id-b", classicReceipt), ("id-a", classicReceipt)] (by decide)).2.1,
    ((C9_submission_unique [] classicReceipt ["id-a"] "id-a" [("id-a", classicReceipt)]
          (by decide)).2.2 classicReceipt ["id-a", "id-b"] "id-b"
        [("id-b", classicReceipt), ("id-a", classicReceipt)] (by decide)).2.2⟩

/-- C10: when the total fails to parse (and date and time parse), the
zero value satisfies both `math.Mod` checks, so the two total rules
together contribute exactly 75 points. -/
theorem C10_unparseable_total (r : Receipt) (d : GoDate) (t : GoTime)
    (hd : parseDate r.purchaseDate = some d) (ht : parseTime r.purchaseTime = some t)
    (htot : parseFloatQ r.total = none) :
    roundDollarPoints r.total + quarterPoints r.total = 75 ∧
    receiptPoints r =
      retailerPoints r.retailer + 75 + itemPairPoints r.items + descriptionPoints r.items +
        datePoints d + timeRulePoints t := by
  have h50 : roundDollarPoints r.total = 50 := by
    unfold roundDollarPoints
    simp [htot, goMod_zero]
  have h25 : quarterPoints r.total = 25 := by
    unfold quarterPoints
    simp [htot, goMod_zero]
  refine ⟨by omega, ?_⟩
  rw [receiptPoints_decomp r d t hd ht, h50, h25]
  ring

attribute [local semireducible] Rat.mul Rat.add Rat.sub Rat.inv in
/-- C10 (witness): a receipt with total `xyz` and no other
contributions besides the odd purchase day scores 0 + 75 + 6 = 81. -/
theorem C10_witness :
    parseFloatQ "xyz" = none ∧
      roundDollarPoints "xyz" + quarterPoints "xyz" = 75 ∧
      receiptPoints ⟨"", "2022-01-01", "13:01", "xyz", []⟩ =
        retailerPoints "" + 75 + itemPairPoints [] + descriptionPoints [] +
          datePoints ⟨2022, 1, 1⟩ + timeRulePoints ⟨13, 1⟩ :=
  ⟨by decide,
    (C10_unparseable_total ⟨"", "2022-01-01", "13:01", "xyz", []⟩ ⟨2022, 1, 1⟩ ⟨13, 1⟩
        (by decide) (by decide) (by decide)).1,
    (C10_unparseable_total ⟨"", "2022-01-01", "13:01", "xyz", []⟩ ⟨2022, 1, 1⟩ ⟨13, 1⟩
        (by decide) (by decide) (by decide)).2⟩
